import Mathlib

/-
Verification of the ERC7579 UserOperation server core.

The Rust sources are shallowly embedded: machine integers (U256, u64,
addresses) become `Nat` with explicit bounds or `% 2 ^ w` where overflow
matters, byte strings become `List Nat` (each entry < 256), fallible
functions return `Except`/sum types, and Rust panics (`unwrap`/`expect`/
division by zero) are modelled by an explicit `crashed` outcome.
Network calls are passed in as explicit function arguments or as
already-fetched values, so every definition is executable.
-/

/- ### Byte-level helpers -/

/-- Big-endian byte rendering of `v` into exactly `k` bytes (low `8 * k` bits
of `v`); mirrors `U256::to_big_endian`, `u64::to_be_bytes` and the byte view
of `H160`/`H256` values in the Rust sources. -/
def beBytes : Nat → Nat → List Nat
  | 0, _ => []
  | k + 1, v => beBytes k (v / 256) ++ [v % 256]

/-- Big-endian byte interpretation; mirrors `U256::from_big_endian`. -/
def fromBigEndian (bs : List Nat) : Nat :=
  bs.foldl (fun acc b => acc * 256 + b) 0

/-- Little-endian byte rendering of the low `k` bytes of `n` (keccak lanes). -/
def toLEBytes (k n : Nat) : List Nat :=
  (List.range k).map (fun j => (n >>> (8 * j)) % 256)

/-- Little-endian byte interpretation of a lane. -/
def wordOfLEBytes (bs : List Nat) : Nat :=
  bs.foldr (fun b acc => acc * 256 + b) 0

/-- The UTF-8 bytes of an ASCII string (all strings appearing in the sources
are ASCII, where UTF-8 bytes coincide with code points). -/
def asciiBytes (s : String) : List Nat :=
  s.data.map (fun c => c.toNat)

/- ### Keccak-256 (`ethers::utils::keccak256`) -/

/-- 64-bit left rotation. -/
def rotl64 (x n : Nat) : Nat :=
  ((x <<< n) ||| (x >>> (64 - n))) % 2 ^ 64

/-- Lane `(x, y)` of a 25-lane keccak state. -/
def lane (s : List Nat) (x y : Nat) : Nat :=
  s.getD (x + 5 * y) 0

/-- Keccak rho-step rotation offsets. -/
def rhoOff (x y : Nat) : Nat :=
  match x, y with
  | 0, 0 => 0  | 1, 0 => 1  | 2, 0 => 62 | 3, 0 => 28 | 4, 0 => 27
  | 0, 1 => 36 | 1, 1 => 44 | 2, 1 => 6  | 3, 1 => 55 | 4, 1 => 20
  | 0, 2 => 3  | 1, 2 => 10 | 2, 2 => 43 | 3, 2 => 25 | 4, 2 => 39
  | 0, 3 => 41 | 1, 3 => 45 | 2, 3 => 15 | 3, 3 => 21 | 4, 3 => 8
  | 0, 4 => 18 | 1, 4 => 2  | 2, 4 => 61 | 3, 4 => 56 | 4, 4 => 14
  | _, _ => 0

/-- Keccak iota-step round constants. -/
def roundConstants : List Nat :=
  [0x0000000000000001, 0x0000000000008082, 0x800000000000808a, 0x8000000080008000,
   0x000000000000808b, 0x0000000080000001, 0x8000000080008081, 0x8000000000008009,
   0x000000000000008a, 0x0000000000000088, 0x0000000080008009, 0x000000008000000a,
   0x000000008000808b, 0x800000000000008b, 0x8000000000008089, 0x8000000000008003,
   0x8000000000008002, 0x8000000000000080, 0x000000000000800a, 0x800000008000000a,
   0x8000000080008081, 0x8000000000008080, 0x0000000080000001, 0x8000000080008008]

/-- Keccak theta step. -/
def thetaStep (s : List Nat) : List Nat :=
  let c : Nat → Nat := fun x =>
    lane s x 0 ^^^ lane s x 1 ^^^ lane s x 2 ^^^ lane s x 3 ^^^ lane s x 4
  let d : Nat → Nat := fun x => c ((x + 4) % 5) ^^^ rotl64 (c ((x + 1) % 5)) 1
  (List.range 25).map (fun i => s.getD i 0 ^^^ d (i % 5))

/-- Keccak rho and pi steps combined (target lane `(x, y)` receives the
rotated source lane `((x + 3y) % 5, x)`). -/
def rhoPiStep (s : List Nat) : List Nat :=
  (List.range 25).map (fun i =>
    let xt := i % 5
    let yt := i / 5
    let xs := (xt + 3 * yt) % 5
    rotl64 (lane s xs xt) (rhoOff xs xt))

/-- Keccak chi step. -/
def chiStep (s : List Nat) : List Nat :=
  (List.range 25).map (fun i =>
    let x := i % 5
    let y := i / 5
    lane s x y ^^^ ((lane s ((x + 1) % 5) y ^^^ (2 ^ 64 - 1)) &&& lane s ((x + 2) % 5) y))

/-- Keccak iota step. -/
def iotaStep (rc : Nat) (s : List Nat) : List Nat :=
  match s with
  | [] => []
  | a :: rest => (a ^^^ rc) :: rest

/-- The keccak-f[1600] permutation (24 rounds). -/
def keccakF (s : List Nat) : List Nat :=
  roundConstants.foldl (fun st rc => iotaStep rc (chiStep (rhoPiStep (thetaStep st)))) s

/-- Multi-rate padding for rate 136 (keccak-256). -/
def keccakPad (m : List Nat) : List Nat :=
  let q := 136 - m.length % 136
  if q = 1 then m ++ [0x81]
  else m ++ [0x01] ++ List.replicate (q - 2) 0 ++ [0x80]

/-- Absorb one 136-byte block into the state (little-endian lanes). -/
def absorbBlock (s : List Nat) (block : List Nat) : List Nat :=
  keccakF ((List.range 25).map (fun i =>
    if i < 17 then s.getD i 0 ^^^ wordOfLEBytes ((block.drop (8 * i)).take 8)
    else s.getD i 0))

/-- Absorb a padded message block by block. -/
def absorbAll (s : List Nat) (m : List Nat) : List Nat :=
  match m with
  | [] => s
  | b :: rest => absorbAll (absorbBlock s ((b :: rest).take 136)) (rest.drop 135)
termination_by m.length
decreasing_by simp [List.length_drop]; omega

/-- Keccak-256 of a byte string, as `ethers::utils::keccak256`
(validated against the standard test vectors, e.g.
`keccak256("") = c5d24601...` and `keccak256("abc") = 4e03657a...`). -/
def keccak256 (m : List Nat) : List Nat :=
  let final := absorbAll (List.replicate 25 0) (keccakPad m)
  (List.range 4).flatMap (fun i => toLEBytes 8 (final.getD i 0))

/- ### Solidity ABI encoding (the `ethabi` fragment the sources use)

`ethers`' derived `AbiEncode::encode` turns a struct into its field tokens
(`Tokenize::into_tokens` flattens the derived `Token::Tuple`) and encodes
them with `ethabi::encode`, the standard head/tail parameter-list encoding:
static values occupy 32 head bytes; each dynamic value contributes a 32-byte
offset (head length plus tail bytes emitted so far) in the head and a
length-prefixed, zero-padded payload in the tail. -/

/-- The token shapes appearing in the sources: `Address`, `Uint`
(`U256`), `FixedBytes` (`[u8; 32]`), `Bytes` and `String`. -/
inductive AbiToken where
  | addr (a : Nat)
  | uint (n : Nat)
  | fixedBytes (b : List Nat)
  | bytes (b : List Nat)
  | str (b : List Nat)

/-- Whether a token is dynamically sized (`bytes` / `string` here). -/
def isDynamicToken : AbiToken → Bool
  | .bytes _ => true
  | .str _ => true
  | _ => false

/-- Head (in-place) encoding of a static token: 32 bytes. -/
def encStatic : AbiToken → List Nat
  | .addr a => List.replicate 12 0 ++ beBytes 20 a
  | .uint n => beBytes 32 n
  | .fixedBytes b => b ++ List.replicate (32 - b.length) 0
  | .bytes _ => []
  | .str _ => []

/-- Tail encoding of a dynamic token: 32-byte length, payload, zero padding
to a 32-byte boundary. -/
def encTail : AbiToken → List Nat
  | .bytes b => beBytes 32 b.length ++ b ++ List.replicate ((32 - b.length % 32) % 32) 0
  | .str b => beBytes 32 b.length ++ b ++ List.replicate ((32 - b.length % 32) % 32) 0
  | _ => []

/-- Head/tail accumulation for `ethabi::encode`: `hl` is the total head
length, offsets are head length plus tail bytes already emitted. -/
def abiEncodeGo (hl : Nat) : List AbiToken → List Nat → List Nat → List Nat × List Nat
  | [], headAcc, tailAcc => (headAcc, tailAcc)
  | t :: ts, headAcc, tailAcc =>
    if isDynamicToken t then
      abiEncodeGo hl ts (headAcc ++ beBytes 32 (hl + tailAcc.length)) (tailAcc ++ encTail t)
    else
      abiEncodeGo hl ts (headAcc ++ encStatic t) tailAcc

/-- `ethabi::encode` on a parameter list (every head slot here is 32 bytes
wide, so the head length is `32 * length`). -/
def abiEncode (ts : List AbiToken) : List Nat :=
  let p := abiEncodeGo (32 * ts.length) ts [] []
  p.1 ++ p.2

/- ### The operation data model (`src/primitives/user_operation.rs`) -/

/-- `UserOperation`: addresses and `U256` fields as `Nat`, `Bytes` fields as
byte lists, `paymaster` as the `String` it is in the source. -/
structure UserOperation where
  sender : Nat
  nonce : Nat
  factory : Nat
  factory_data : List Nat
  call_data : List Nat
  call_gas_limit : Nat
  verification_gas_limit : Nat
  pre_verification_gas : Nat
  max_fee_per_gas : Nat
  max_priority_fee_per_gas : Nat
  paymaster : String
  paymaster_verification_gas_limit : Nat
  paymaster_post_op_gas_limit : Nat
  paymaster_data : List Nat
  signature : List Nat

/-- `UserOperationUnsigned`: every `UserOperation` field except `signature`. -/
structure UserOperationUnsigned where
  sender : Nat
  nonce : Nat
  factory : Nat
  factory_data : List Nat
  call_data : List Nat
  call_gas_limit : Nat
  verification_gas_limit : Nat
  pre_verification_gas : Nat
  max_fee_per_gas : Nat
  max_priority_fee_per_gas : Nat
  paymaster : String
  paymaster_verification_gas_limit : Nat
  paymaster_post_op_gas_limit : Nat
  paymaster_data : List Nat

/-- `impl From<UserOperation> for UserOperationUnsigned`: field-by-field copy
with `call_data` replaced by `keccak256(call_data)`. -/
def UserOperationUnsigned.ofUserOperation (op : UserOperation) : UserOperationUnsigned :=
  { sender := op.sender
    nonce := op.nonce
    factory := op.factory
    factory_data := op.factory_data
    call_data := keccak256 op.call_data
    call_gas_limit := op.call_gas_limit
    verification_gas_limit := op.verification_gas_limit
    pre_verification_gas := op.pre_verification_gas
    max_fee_per_gas := op.max_fee_per_gas
    max_priority_fee_per_gas := op.max_priority_fee_per_gas
    paymaster := op.paymaster
    paymaster_verification_gas_limit := op.paymaster_verification_gas_limit
    paymaster_post_op_gas_limit := op.paymaster_post_op_gas_limit
    paymaster_data := op.paymaster_data }

/-- The ABI tokens of a `UserOperationUnsigned` in field declaration order
(the derived `EthAbiType` tokenization). -/
def UserOperationUnsigned.tokens (u : UserOperationUnsigned) : List AbiToken :=
  [.addr u.sender, .uint u.nonce, .addr u.factory, .bytes u.factory_data,
   .bytes u.call_data, .uint u.call_gas_limit, .uint u.verification_gas_limit,
   .uint u.pre_verification_gas, .uint u.max_fee_per_gas,
   .uint u.max_priority_fee_per_gas, .str (asciiBytes u.paymaster),
   .uint u.paymaster_verification_gas_limit, .uint u.paymaster_post_op_gas_limit,
   .bytes u.paymaster_data]

/-- `UserOperation::pack_without_signature`. -/
def UserOperation.pack_without_signature (op : UserOperation) : List Nat :=
  abiEncode (UserOperationUnsigned.ofUserOperation op).tokens

/-- `UserOperation::hash(&self, entry_point, chain_id)`: keccak of the inner
digest concatenated with the ABI encodings of the entry point and chain id. -/
def UserOperation.hash (op : UserOperation) (entry_point chain_id : Nat) : List Nat :=
  keccak256 (keccak256 op.pack_without_signature
    ++ abiEncode [.addr entry_point] ++ abiEncode [.uint chain_id])

/-- The `signature` builder method of `UserOperation` (sets the field). -/
def UserOperation.setSignature (op : UserOperation) (s : List Nat) : UserOperation :=
  { op with signature := s }

/-- Spec-side formula for C1, written from the spec's words: the ABI
encoding `E`, in field declaration order, of the operation's fields with the
signature field removed and `call_data` replaced by `keccak256(call_data)`;
the hash is `keccak256(keccak256(E) ++ abi_encode(ep) ++ abi_encode(cid))`. -/
def specHashFormula (op : UserOperation) (ep cid : Nat) : List Nat :=
  let e := abiEncode
    [.addr op.sender, .uint op.nonce, .addr op.factory, .bytes op.factory_data,
     .bytes (keccak256 op.call_data), .uint op.call_gas_limit,
     .uint op.verification_gas_limit, .uint op.pre_verification_gas,
     .uint op.max_fee_per_gas, .uint op.max_priority_fee_per_gas,
     .str (asciiBytes op.paymaster), .uint op.paymaster_verification_gas_limit,
     .uint op.paymaster_post_op_gas_limit, .bytes op.paymaster_data]
  keccak256 (keccak256 e ++ abiEncode [.addr ep] ++ abiEncode [.uint cid])

/- ### The partial operation and the builder finalizer
(`UserOperationPartial`, `impl From<UserOperationPartial> for UserOperation`
in `src/primitives/user_operation.rs`; `UserOperationBuilder::build_uo` in
`src/uo_builder.rs`) -/

/-- `UserOperationPartial`: every field optional. -/
structure UserOperationPartial where
  sender : Option Nat
  nonce : Option Nat
  factory : Option Nat
  factory_data : Option (List Nat)
  call_data : Option (List Nat)
  call_gas_limit : Option Nat
  verification_gas_limit : Option Nat
  pre_verification_gas : Option Nat
  max_fee_per_gas : Option Nat
  max_priority_fee_per_gas : Option Nat
  paymaster : Option String
  paymaster_verification_gas_limit : Option Nat
  paymaster_post_op_gas_limit : Option Nat
  paymaster_data : Option (List Nat)
  signature : Option (List Nat)

/-- `impl From<UserOperationPartial> for UserOperation`: each `Some` value is
taken as is, each `None` defaults (zero address, zero integer, empty bytes,
paymaster `"0x"`). -/
def UserOperation.ofPartial (p : UserOperationPartial) : UserOperation :=
  { sender := match p.sender with | some v => v | none => 0
    nonce := match p.nonce with | some v => v | none => 0
    factory := match p.factory with | some v => v | none => 0
    factory_data := match p.factory_data with | some v => v | none => []
    call_data := match p.call_data with | some v => v | none => []
    call_gas_limit := match p.call_gas_limit with | some v => v | none => 0
    verification_gas_limit := match p.verification_gas_limit with | some v => v | none => 0
    pre_verification_gas := match p.pre_verification_gas with | some v => v | none => 0
    max_fee_per_gas := match p.max_fee_per_gas with | some v => v | none => 0
    max_priority_fee_per_gas := match p.max_priority_fee_per_gas with | some v => v | none => 0
    paymaster := match p.paymaster with | some v => v | none => "0x"
    paymaster_verification_gas_limit :=
      match p.paymaster_verification_gas_limit with | some v => v | none => 0
    paymaster_post_op_gas_limit :=
      match p.paymaster_post_op_gas_limit with | some v => v | none => 0
    paymaster_data := match p.paymaster_data with | some v => v | none => []
    signature := match p.signature with | some v => v | none => [] }

/-- `UserOpBuilderError` (`src/errors.rs`), without the middleware-generic
wrapper variant. -/
inductive UserOpBuilderError where
  | SmartContractWalletAddressNotSet
  | SmartContractWalletHasBeenDeployed
  | SmartContractWalletHasNotBeenDeployed
  | MissingUserOperationField (name : String)
  | UnknownError
deriving DecidableEq

/-- `UserOperationBuilder::build_uo`: one `is_none` check per field, in
field declaration order, then the permissive conversion on success. -/
def build_uo (uo : UserOperationPartial) : Except UserOpBuilderError UserOperation :=
  if uo.sender.isNone then .error (.MissingUserOperationField "sender")
  else if uo.nonce.isNone then .error (.MissingUserOperationField "nonce")
  else if uo.factory.isNone then .error (.MissingUserOperationField "factory")
  else if uo.factory_data.isNone then .error (.MissingUserOperationField "factory_data")
  else if uo.call_data.isNone then .error (.MissingUserOperationField "call_data")
  else if uo.call_gas_limit.isNone then .error (.MissingUserOperationField "call_gas_limit")
  else if uo.verification_gas_limit.isNone then
    .error (.MissingUserOperationField "verification_gas_limit")
  else if uo.pre_verification_gas.isNone then
    .error (.MissingUserOperationField "pre_verification_gas")
  else if uo.max_fee_per_gas.isNone then .error (.MissingUserOperationField "max_fee_per_gas")
  else if uo.max_priority_fee_per_gas.isNone then
    .error (.MissingUserOperationField "max_priority_fee_per_gas")
  else if uo.paymaster.isNone then .error (.MissingUserOperationField "paymaster")
  else if uo.paymaster_verification_gas_limit.isNone then
    .error (.MissingUserOperationField "paymaster_verification_gas_limit")
  else if uo.paymaster_post_op_gas_limit.isNone then
    .error (.MissingUserOperationField "paymaster_post_op_gas_limit")
  else if uo.paymaster_data.isNone then .error (.MissingUserOperationField "paymaster_data")
  else if uo.signature.isNone then .error (.MissingUserOperationField "signature")
  else .ok (UserOperation.ofPartial uo)

/-- Spec side of C4: the name of the first unset field in declaration order
(junk value when every field is set). -/
def firstUnsetName (uo : UserOperationPartial) : String :=
  if uo.sender.isNone then "sender"
  else if uo.nonce.isNone then "nonce"
  else if uo.factory.isNone then "factory"
  else if uo.factory_data.isNone then "factory_data"
  else if uo.call_data.isNone then "call_data"
  else if uo.call_gas_limit.isNone then "call_gas_limit"
  else if uo.verification_gas_limit.isNone then "verification_gas_limit"
  else if uo.pre_verification_gas.isNone then "pre_verification_gas"
  else if uo.max_fee_per_gas.isNone then "max_fee_per_gas"
  else if uo.max_priority_fee_per_gas.isNone then "max_priority_fee_per_gas"
  else if uo.paymaster.isNone then "paymaster"
  else if uo.paymaster_verification_gas_limit.isNone then "paymaster_verification_gas_limit"
  else if uo.paymaster_post_op_gas_limit.isNone then "paymaster_post_op_gas_limit"
  else if uo.paymaster_data.isNone then "paymaster_data"
  else "signature"

/-- Spec side of C4, written from the claim's words: when every field is set
the finalizer succeeds and the resulting operation carries exactly the
supplied values; otherwise it fails naming the first unset field. -/
def buildSpec (uo : UserOperationPartial) : Except UserOpBuilderError UserOperation :=
  match uo with
  | ⟨some s, some n, some f, some fd, some cd, some cg, some vg, some pv, some mf,
     some mp, some pm, some pvg, some pog, some pd, some sg⟩ =>
    .ok ⟨s, n, f, fd, cd, cg, vg, pv, mf, mp, pm, pvg, pog, pd, sg⟩
  | u => .error (.MissingUserOperationField (firstUnsetName u))

/-- The all-`None` partial operation of C9. -/
def emptyPartial : UserOperationPartial :=
  ⟨none, none, none, none, none, none, none, none, none, none, none, none, none,
   none, none⟩

/- ### Relay response handling (`UserOpMiddleware::handle_response`,
`src/userop_middleware.rs`)

The regex fragment the source uses (two literal/digit-group patterns and one
substring test) is embedded over `List Char`. Rust's `Regex::captures`
returns the leftmost match; both patterns have the shape
`lit1 (\d+) mid (\d+)` where `lit1` and `mid` start with a non-digit, so at
a given start position the greedy maximal digit runs are the only possible
captures. In the regex crate `\d` is the Unicode decimal-digit class
`\p{Nd}`, whose exact contents vary with the crate's bundled Unicode
version; this embedding is its restriction to ASCII haystacks, where
`\p{Nd}` coincides with `0-9`, so it is exact on messages of ASCII
characters and the classification theorem assumes such a message. On a
message containing non-ASCII decimal digits the real regex can match with
captures that `captures[i].parse::<u64>().unwrap()` rejects (`parse`
accepts only ASCII digits), a panic this restriction does not track.
`parse::<u64>().unwrap()` likewise panics on an ASCII run denoting a value
at or above `2^64`. -/

/-- `UserOpMiddlewareError` (`src/errors.rs`), without the middleware- and
builder-generic wrapper variants. -/
inductive UserOpMiddlewareError where
  | SmartContractWalletDeploymentError
  | PreVerificationGasError (provided calculated : Nat)
  | CallGasLimitError (limit estimation : Nat)
  | VerificationGasLimitError
  | UnknownError
deriving DecidableEq

/-- Match a literal at the head of `s`; return the rest on success. -/
def litMatches : List Char → List Char → Option (List Char)
  | [], s => some s
  | _ :: _, [] => none
  | c :: cs, d :: ds => if c = d then litMatches cs ds else none

/-- Split off the maximal leading digit run, with the digit class `\d`
restricted to an ASCII haystack, where `\p{Nd}` is exactly `0-9`; on
non-ASCII haystacks the real class is larger (see the section comment). -/
def takeDigitRun : List Char → List Char × List Char
  | [] => ([], [])
  | c :: cs =>
    if c.isDigit then
      let p := takeDigitRun cs
      (c :: p.1, p.2)
    else ([], c :: cs)

/-- Try the pattern `lit1 (\d+) mid (\d+)` anchored at the head of `s`,
returning the two captured digit runs. -/
def tryPatternAt (lit1 mid s : List Char) : Option (List Char × List Char) :=
  match litMatches lit1 s with
  | none => none
  | some r1 =>
    let p1 := takeDigitRun r1
    if p1.1 = [] then none
    else
      match litMatches mid p1.2 with
      | none => none
      | some r2 =>
        let p2 := takeDigitRun r2
        if p2.1 = [] then none else some (p1.1, p2.1)

/-- Leftmost match of `lit1 (\d+) mid (\d+)` in `s` (as `Regex::captures`),
exact for ASCII `s`; through `takeDigitRun` it inherits the restriction of
`\d` to the ASCII haystack fragment. -/
def findPattern (lit1 mid : List Char) : List Char → Option (List Char × List Char)
  | [] =>
    match tryPatternAt lit1 mid [] with
    | some r => some r
    | none => none
  | c :: rest =>
    match tryPatternAt lit1 mid (c :: rest) with
    | some r => some r
    | none => findPattern lit1 mid rest

/-- Substring test (`str::contains`). -/
def hasSubstr (needle : List Char) : List Char → Bool
  | [] =>
    match litMatches needle [] with
    | some _ => true
    | none => false
  | c :: rest =>
    match litMatches needle (c :: rest) with
    | some _ => true
    | none => hasSubstr needle rest

/-- Numeric value of a digit run (`str::parse::<u64>` before its range
check). -/
def natOfDigits (ds : List Char) : Nat :=
  ds.foldl (fun a c => a * 10 + (c.toNat - 48)) 0

/-- Outcome of `handle_response`: a parsed success envelope, a typed relay
error returned as `anyhow::Error`, a propagated serde failure, or a panic
(`unwrap` on an out-of-range `u64` parse). -/
inductive HandleOutcome (R : Type) where
  | success (r : R)
  | failure (e : UserOpMiddlewareError)
  | deserializationFailure
  | crashed
deriving DecidableEq

/-- A relay body, by how the two serde parses in the source fare: parses as
the success envelope, fails that but parses as the error envelope carrying
`message`, or parses as neither. -/
inductive RelayBody (R : Type) where
  | successEnvelope (result : R)
  | errorEnvelope (message : List Char)
  | malformed

/-- First literal of the call-gas-limit regex. -/
def callGasLit : List Char :=
  String.data "Call gas limit "

/-- Middle literal of the call-gas-limit regex. -/
def callGasMid : List Char :=
  String.data " is lower than call gas estimation "

/-- First literal of the pre-verification-gas regex. -/
def preVerLit : List Char :=
  String.data "Pre-verification gas "

/-- Middle literal of the pre-verification-gas regex. -/
def preVerMid : List Char :=
  String.data " is lower than calculated pre-verification gas "

/-- The verification-gas-limit needle. -/
def aa40Needle : List Char :=
  String.data "AA40 over verificationGasLimit"

/-- Whether a message consists of ASCII characters only; on such messages
the embedded matchers agree exactly with the source's Unicode-aware regex. -/
def isAsciiMsg (msg : List Char) : Bool :=
  msg.all (fun c => c.toNat < 128)

/-- The classification cascade of `handle_response` on an error-envelope
message: the call-gas-limit regex, then the pre-verification-gas regex, then
the `AA40` substring test, then `UnknownError`; exact for ASCII messages
(see the section comment for the non-ASCII digit caveat). -/
def classify (R : Type) (msg : List Char) : HandleOutcome R :=
  match findPattern callGasLit callGasMid msg with
  | some (d1, d2) =>
    if natOfDigits d1 < 2 ^ 64 then
      if natOfDigits d2 < 2 ^ 64 then
        .failure (.CallGasLimitError (natOfDigits d1) (natOfDigits d2))
      else .crashed
    else .crashed
  | none =>
    match findPattern preVerLit preVerMid msg with
    | some (d1, d2) =>
      if natOfDigits d1 < 2 ^ 64 then
        if natOfDigits d2 < 2 ^ 64 then
          .failure (.PreVerificationGasError (natOfDigits d1) (natOfDigits d2))
        else .crashed
      else .crashed
    | none =>
      if hasSubstr aa40Needle msg then
        .failure .VerificationGasLimitError
      else .failure .UnknownError

/-- `UserOpMiddleware::handle_response`: a body parsing as the success
envelope is returned as is; one parsing only as the error envelope is
classified; one parsing as neither propagates the serde failure. -/
def handle_response (R : Type) (body : RelayBody R) : HandleOutcome R :=
  match body with
  | .successEnvelope r => .success r
  | .errorEnvelope msg => classify R msg
  | .malformed => .deserializationFailure

/-- The error message of the spec's classification example. -/
def callGasMsgExample : List Char :=
  String.data "Call gas limit 100 is lower than call gas estimation 250"

/-- An error message whose first captured number does not fit in 64 bits. -/
def callGasOverflowMsg : List Char :=
  String.data "Call gas limit 18446744073709551616 is lower than call gas estimation 1"

/- ### Fee-market sampling (`UserOpMiddleware::get_gas_fee`) -/

/-- The two EIP-1559 fee fields of a sampled transaction. -/
structure TxFees where
  max_fee_per_gas : Option Nat
  max_priority_fee_per_gas : Option Nat

/-- Outcome of `get_gas_fee`: a returned pair, a propagated provider error,
or a panic (`unwrap` of a missing block, `U256` sum overflow, or the
division by a zero transaction count). -/
inductive GasFeeOutcome where
  | ok (fees : Nat × Nat)
  | err
  | crashed
deriving DecidableEq

/-- Whether a `GasFeeOutcome` is a returned error value. -/
def GasFeeOutcome.isErrValue : GasFeeOutcome → Bool
  | .err => true
  | _ => false

/-- The transactions carrying both fee fields, with their fee pairs (the
loop in the source accumulates exactly these). -/
def qualifyingFees (txs : List TxFees) : List (Nat × Nat) :=
  txs.filterMap (fun t =>
    match t.max_fee_per_gas, t.max_priority_fee_per_gas with
    | some a, some b => some (a, b)
    | _, _ => none)

/-- `UserOpMiddleware::get_gas_fee`, over the result of the two provider
calls: a provider failure propagates; a missing block panics on `unwrap`;
otherwise the fee fields of the qualifying transactions are summed (a `U256`
sum overflow panics) and both sums are divided by the qualifying count
(`U256` division by zero panics when no transaction qualifies). -/
def get_gas_fee (blockFetch : Except Unit (Option (List TxFees))) : GasFeeOutcome :=
  match blockFetch with
  | .error _ => .err
  | .ok none => .crashed
  | .ok (some txs) =>
    let q := qualifyingFees txs
    let total1 := (q.map Prod.fst).sum
    let total2 := (q.map Prod.snd).sum
    if 2 ^ 256 ≤ total1 ∨ 2 ^ 256 ≤ total2 then .crashed
    else if q.length = 0 then .crashed
    else .ok (total1 / q.length, total2 / q.length)

/-- The synthetic block of the spec's fee-sampling example. -/
def sampleTxs : List TxFees :=
  [⟨some 10, some 1⟩, ⟨some 20, some 2⟩, ⟨some 30, some 3⟩]

/- ### The wallet registries and the builder's address derivation
(`src/types.rs`, `src/consts.rs`, `src/uo_builder.rs`) -/

/-- `SIMPLE_ACCOUNT_FACTORY` (`src/consts.rs`). -/
def SIMPLE_ACCOUNT_FACTORY : Nat := 0x9406Cc6185a346906296840746125a0E44976454

/-- `GETH_SIMPLE_ACCOUNT_FACTORY` (`src/consts.rs`). -/
def GETH_SIMPLE_ACCOUNT_FACTORY : Nat := 0xe7f1725e7734ce288f8367e1bb143e90bb3f0512

/-- `MSA_FACTORY_SEPOLIA` (`src/consts.rs`). -/
def MSA_FACTORY_SEPOLIA : Nat := 0xc1f3f2dBbe9498FE9A2Fd75dEa6507A57033fe42

/-- `WalletRegistry` (`src/types.rs`). -/
inductive WalletRegistry where
  | SimpleAccount
  | MSABasicAccount
deriving DecidableEq

/-- `WalletRegistry::from_str`; the error is the formatted
`"{} wallet currently not supported"` message. -/
def WalletRegistry.from_str (s : String) : Except String WalletRegistry :=
  if s = "simple-account" then .ok .SimpleAccount
  else if s = "simple-account-test" then .ok .SimpleAccount
  else if s = "msa-basic-account" then .ok .MSABasicAccount
  else .error (s ++ " wallet currently not supported")

/-- `WalletFactoryAddresses` (`src/types.rs`). -/
inductive WalletFactoryAddresses where
  | SimpleAccountFactoryAddress (addr : Nat)
  | MSABasicFactoryAddress (addr : Nat)
deriving DecidableEq

/-- `WalletFactoryAddresses::from_str`; the error is the formatted
`"{}'s factory not supported"` message. -/
def WalletFactoryAddresses.from_str (s : String) : Except String WalletFactoryAddresses :=
  if s = "simple-account" then .ok (.SimpleAccountFactoryAddress SIMPLE_ACCOUNT_FACTORY)
  else if s = "simple-account-test" then
    .ok (.SimpleAccountFactoryAddress GETH_SIMPLE_ACCOUNT_FACTORY)
  else if s = "msa-account-sepolia" then .ok (.MSABasicFactoryAddress MSA_FACTORY_SEPOLIA)
  else .error (s ++ "'s factory not supported")

/-- `WalletFactoryRegistry` (`src/types.rs`): the tagged factory binding,
carrying the address the contract object is instantiated at. -/
inductive WalletFactoryRegistry where
  | SimpleAccountFactory (addr : Nat)
  | MSABasicFactory (addr : Nat)
deriving DecidableEq

/-- The account-side binding `Box<dyn SmartWalletAccount>` produced by
`match_wallet`, carrying the address it is instantiated at. -/
inductive WalletContractBinding where
  | SimpleAccount (addr : Nat)
  | MSABasic (addr : Nat)
deriving DecidableEq

/-- `UserOperationBuilder::match_wallet`: resolves the factory registry
first, then the wallet registry; either failure propagates. The account
contract is instantiated at the resolved factory address. -/
def match_wallet (wallet_name : String) :
    Except String (WalletContractBinding × WalletFactoryRegistry × Nat) :=
  match WalletFactoryAddresses.from_str wallet_name with
  | .error e => .error e
  | .ok fa =>
    let p : WalletFactoryRegistry × Nat :=
      match fa with
      | .SimpleAccountFactoryAddress a => (.SimpleAccountFactory a, a)
      | .MSABasicFactoryAddress a => (.MSABasicFactory a, a)
    match WalletRegistry.from_str wallet_name with
    | .error e => .error e
    | .ok .SimpleAccount => .ok (.SimpleAccount p.2, p.1, p.2)
    | .ok .MSABasicAccount => .ok (.MSABasic p.2, p.1, p.2)

/-- Outcome of `set_scw_address`: a derived address, a propagated
chain-client error, or a panic (`expect`/`unwrap` on a missing salt). -/
inductive ScwOutcome where
  | ok (addr : Nat)
  | err
  | crashed
deriving DecidableEq

/-- Whether a `ScwOutcome` is a returned error value. -/
def ScwOutcome.isErrValue : ScwOutcome → Bool
  | .err => true
  | _ => false

/-- `UserOperationBuilder::set_scw_address`, with the two factory contract
address queries passed in as functions (`generate_address(creator, salt)`
and `get_address(hashed_salt, init_code)`): the simple-account arm calls
`self.salt.expect(..)` and the modular arm `self.salt.unwrap()`, so a
missing salt panics in both; otherwise the kind-specific query runs (the
modular arm hashes the salt's 8 big-endian bytes and passes empty init
code) and its error propagates. -/
def set_scw_address
    (simpleQuery : Nat → Nat → Except Unit Nat)
    (msaQuery : List Nat → List Nat → Except Unit Nat)
    (factory_address : Nat) (factory : WalletFactoryRegistry)
    (salt : Option Nat) : ScwOutcome :=
  match factory with
  | .SimpleAccountFactory _ =>
    match salt with
    | none => .crashed
    | some s =>
      match simpleQuery factory_address s with
      | .error _ => .err
      | .ok a => .ok a
  | .MSABasicFactory _ =>
    match salt with
    | none => .crashed
    | some s =>
      match msaQuery (keccak256 (beBytes 8 s)) [] with
      | .error _ => .err
      | .ok a => .ok a

/- ### Transfer calldata and the nonce key
(`UserOpMiddleware::calldata_gen_send_eth`, `UserOpMiddleware::get_nonce`) -/

/-- The 32-byte zero mode tag (`mode_code_single`). -/
def mode_code_single : List Nat := List.replicate 32 0

/-- The execution payload: 20-byte destination, 32-byte big-endian value,
one zero flag byte. -/
def execution_calldata (to_address value : Nat) : List Nat :=
  beBytes 20 to_address ++ beBytes 32 value ++ [0]

/-- Modelled from the spec: the repository's ABI file `src/abi/MSABasic.json`
is not under `src/`; the spec describes the calldata as delegated to the
target account contract's generic dispatch entry point, the ERC-7579
`execute(bytes32,bytes)` function, whose selector is the first 4 bytes of
the keccak-256 of its signature. -/
def executeSelector : List Nat :=
  (keccak256 (asciiBytes "execute(bytes32,bytes)")).take 4

/-- `BaseContract::encode(name, args)` (ethers): the 4-byte selector
followed by the `ethabi` encoding of the argument list. -/
def abiEncodeCall (selector : List Nat) (args : List AbiToken) : List Nat :=
  selector ++ abiEncode args

/-- `UserOpMiddleware::calldata_gen_send_eth`: ABI-encodes the `execute`
call with the zero mode tag and the execution payload as its `bytes`
argument. -/
def calldata_gen_send_eth (to_address value : Nat) : List Nat :=
  abiEncodeCall executeSelector
    [.fixedBytes mode_code_single, .bytes (execution_calldata to_address value)]

/-- The calldata layout C8 claims: the bare concatenation of the mode tag,
the destination, the value and the flag byte. -/
def claimedTransferCalldata (to_address value : Nat) : List Nat :=
  List.replicate 32 0 ++ beBytes 20 to_address ++ beBytes 32 value ++ [0]

/-- The destination of the transfer issued in `main.rs`. -/
def transferDest : Nat := 0xc0c374f049f2e0036B48D93346038f0133B8f00F

/-- The transfer value issued in `main.rs` (`1_000_000_000_000_000` wei). -/
def transferValue : Nat := 1000000000000000

/-- The 256-bit nonce key of `get_nonce`: a 32-byte big-endian word with the
20 validator-address bytes at offsets 8 through 27. -/
def nonce_key (validator : Nat) : Nat :=
  fromBigEndian (List.replicate 8 0 ++ beBytes 20 validator ++ List.replicate 4 0)

/-- `UserOpMiddleware::get_nonce`, with the entry point's `getNonce`
contract read passed in as a function: it is queried at `(sender, key)`. -/
def get_nonce (entryPointGetNonce : Nat → Nat → Except Unit Nat)
    (sender validator : Nat) : Except Unit Nat :=
  entryPointGetNonce sender (nonce_key validator)

/- ### Theorems for C1 and C2 -/

/-- C1: for every UserOperation `op`, entry point `ep` and chain id `cid`,
`UserOperation::hash(op, ep, cid)` equals
`keccak256(keccak256(E) ++ abi_encode(ep) ++ abi_encode(cid))` where `E` is
the ABI encoding, in field declaration order, of `op`'s fields with the
signature field removed and `call_data` replaced by `keccak256(call_data)`
(an empty `call_data` thus contributes the keccak digest of the empty
string, not zero). -/
theorem hash_eq_spec_formula (op : UserOperation) (ep cid : Nat) :
    op.hash ep cid = specHashFormula op ep cid := rfl

/-- C2: the signature field never affects the hash: setting any two
signatures yields the same hash. -/
theorem hash_ignores_signature (op : UserOperation) (ep cid : Nat)
    (sigA sigB : List Nat) :
    (op.setSignature sigA).hash ep cid = (op.setSignature sigB).hash ep cid := rfl

/- ### Theorems for C4 and C9 -/

/-- C4: `build_uo` fails with `MissingUserOperationField` naming exactly the
first unset field in declaration order, and when all fifteen fields are set
it succeeds with every field equal to the supplied value. -/
theorem build_uo_eq_buildSpec (uo : UserOperationPartial) :
    build_uo uo = buildSpec uo := by
  obtain ⟨s, n, f, fd, cd, cg, vg, pv, mf, mp, pm, pvg, pog, pd, sg⟩ := uo
  cases s with
  | none => rfl
  | some s =>
  cases n with
  | none => rfl
  | some n =>
  cases f with
  | none => rfl
  | some f =>
  cases fd with
  | none => rfl
  | some fd =>
  cases cd with
  | none => rfl
  | some cd =>
  cases cg with
  | none => rfl
  | some cg =>
  cases vg with
  | none => rfl
  | some vg =>
  cases pv with
  | none => rfl
  | some pv =>
  cases mf with
  | none => rfl
  | some mf =>
  cases mp with
  | none => rfl
  | some mp =>
  cases pm with
  | none => rfl
  | some pm =>
  cases pvg with
  | none => rfl
  | some pvg =>
  cases pog with
  | none => rfl
  | some pog =>
  cases pd with
  | none => rfl
  | some pd =>
  cases sg with
  | none => rfl
  | some sg => rfl

/-- C9: converting an all-`None` partial operation through the permissive
conversion yields exactly the defaults: zero addresses, zero integers, empty
byte fields (including the signature) and paymaster `"0x"`. -/
theorem ofPartial_empty_defaults :
    UserOperation.ofPartial emptyPartial =
      ⟨0, 0, 0, [], [], 0, 0, 0, 0, 0, "0x", 0, 0, [], []⟩ := rfl

/- ### Folding lemmas for big-endian words -/

/-- Folding the big-endian bytes of `v` onto `acc` appends the low `8 * k`
bits of `v` to `acc`. -/
theorem beBytes_foldl (k : Nat) : ∀ v acc : Nat,
    (beBytes k v).foldl (fun a b => a * 256 + b) acc = acc * 256 ^ k + v % 256 ^ k := by
  induction k with
  | zero => intro v acc; simp [beBytes, Nat.mod_one]
  | succ k ih =>
    intro v acc
    rw [beBytes, List.foldl_append, ih]
    simp only [List.foldl_cons, List.foldl_nil]
    rw [pow_succ, mul_comm (256 ^ k) 256, Nat.mod_mul]
    ring

/-- Folding `n` zero bytes multiplies the accumulator by `256 ^ n`. -/
theorem foldl_replicate_zero (n : Nat) : ∀ acc : Nat,
    (List.replicate n 0).foldl (fun a b => a * 256 + b) acc = acc * 256 ^ n := by
  induction n with
  | zero => intro acc; simp
  | succ n ih =>
    intro acc
    rw [List.replicate_succ, List.foldl_cons, ih]
    ring

/-- The nonce key is the validator address shifted left by 32 bits. -/
theorem nonce_key_eq_shift (v : Nat) (h : v < 2 ^ 160) :
    nonce_key v = v * 2 ^ 32 := by
  unfold nonce_key fromBigEndian
  rw [List.foldl_append, List.foldl_append, foldl_replicate_zero, beBytes_foldl,
    foldl_replicate_zero, Nat.mod_eq_of_lt (by norm_num at h ⊢; exact h)]
  norm_num

/- ### Theorem for C10 -/

/-- C10: `get_nonce` builds the 256-bit key by placing the 20 validator
bytes at offsets 8 through 27 of a 32-byte big-endian word, which equals the
validator address shifted left by 32 bits, and queries the entry point's
`getNonce` with `(sender, key)`. -/
theorem get_nonce_queries_shifted_key (ep : Nat → Nat → Except Unit Nat)
    (sender v : Nat) (h : v < 2 ^ 160) :
    get_nonce ep sender v = ep sender (v * 2 ^ 32) := by
  unfold get_nonce
  rw [nonce_key_eq_shift v h]

/-- Witness for C10 at a concrete validator. -/
theorem get_nonce_queries_shifted_key_witness :
    (0xabcd : Nat) < 2 ^ 160 ∧
    get_nonce (fun s k => Except.ok (s + k)) 7 0xabcd = Except.ok (7 + 0xabcd * 2 ^ 32) :=
  ⟨by norm_num,
   get_nonce_queries_shifted_key (fun s k => Except.ok (s + k)) 7 0xabcd (by norm_num)⟩

/- ### Theorems for C7 -/

/-- C7 (amended): with no salt supplied, `set_scw_address` panics on the
`expect`/`unwrap` of the missing salt for both factory kinds — it never
returns an address, and it does not return an error value either. -/
theorem set_scw_address_no_salt_crashes
    (q1 : Nat → Nat → Except Unit Nat) (q2 : List Nat → List Nat → Except Unit Nat)
    (fa : Nat) (factory : WalletFactoryRegistry) :
    set_scw_address q1 q2 fa factory none = .crashed := by
  cases factory <;> rfl

/-- Counterexample to C7 as stated: with no salt, the outcome is the panic,
not a returned error value, for either factory kind. -/
theorem set_scw_address_counterexample :
    set_scw_address (fun _ _ => Except.ok 0) (fun _ _ => Except.ok 0) 0
        (.SimpleAccountFactory 0) none = .crashed ∧
    (set_scw_address (fun _ _ => Except.ok 0) (fun _ _ => Except.ok 0) 0
        (.SimpleAccountFactory 0) none).isErrValue = false ∧
    (set_scw_address (fun _ _ => Except.ok 0) (fun _ _ => Except.ok 0) 0
        (.MSABasicFactory 0) none).isErrValue = false :=
  ⟨rfl, rfl, rfl⟩

/- ### Theorems for C6 -/

/-- C6 (amended): the two registries have different supported label sets —
accounts `{simple-account, simple-account-test, msa-basic-account}` and
factories `{simple-account, simple-account-test, msa-account-sepolia}`. A
label outside a registry's set fails in that registry with its named "not
supported" error carrying the label; the resolved factory addresses are
non-null; and builder construction (`match_wallet`, which resolves both)
succeeds exactly for the two labels common to both sets. -/
theorem registry_lookup_amended :
    (∀ s : String, s ≠ "simple-account" → s ≠ "simple-account-test" →
        s ≠ "msa-basic-account" →
        WalletRegistry.from_str s = .error (s ++ " wallet currently not supported")) ∧
    (∀ s : String, s ≠ "simple-account" → s ≠ "simple-account-test" →
        s ≠ "msa-account-sepolia" →
        WalletFactoryAddresses.from_str s = .error (s ++ "'s factory not supported")) ∧
    SIMPLE_ACCOUNT_FACTORY ≠ 0 ∧ GETH_SIMPLE_ACCOUNT_FACTORY ≠ 0 ∧
    MSA_FACTORY_SEPOLIA ≠ 0 ∧
    match_wallet "simple-account" =
      .ok (.SimpleAccount SIMPLE_ACCOUNT_FACTORY,
        .SimpleAccountFactory SIMPLE_ACCOUNT_FACTORY, SIMPLE_ACCOUNT_FACTORY) ∧
    match_wallet "simple-account-test" =
      .ok (.SimpleAccount GETH_SIMPLE_ACCOUNT_FACTORY,
        .SimpleAccountFactory GETH_SIMPLE_ACCOUNT_FACTORY, GETH_SIMPLE_ACCOUNT_FACTORY) ∧
    match_wallet "msa-basic-account" = .error "msa-basic-account's factory not supported" ∧
    match_wallet "msa-account-sepolia" =
      .error "msa-account-sepolia wallet currently not supported" := by
  refine ⟨?_, ?_, by decide, by decide, by decide, rfl, rfl, rfl, rfl⟩
  · intro s h1 h2 h3
    simp [WalletRegistry.from_str, h1, h2, h3]
  · intro s h1 h2 h3
    simp [WalletFactoryAddresses.from_str, h1, h2, h3]

/-- Witness for C6 at the unknown label of the spec's example. -/
theorem registry_lookup_witness :
    WalletRegistry.from_str "nonexistent-kind" =
      .error ("nonexistent-kind" ++ " wallet currently not supported") ∧
    WalletFactoryAddresses.from_str "nonexistent-kind" =
      .error ("nonexistent-kind" ++ "'s factory not supported") :=
  ⟨registry_lookup_amended.1 "nonexistent-kind" (by decide) (by decide) (by decide),
   registry_lookup_amended.2.1 "nonexistent-kind" (by decide) (by decide) (by decide)⟩

/-- Counterexample to C6 as stated: of the four labels the two registries
support between them, `msa-basic-account` has no factory binding and
`msa-account-sepolia` has no account binding, so builder construction fails
for both. -/
theorem registry_lookup_counterexample :
    match_wallet "msa-basic-account" = .error "msa-basic-account's factory not supported" ∧
    match_wallet "msa-account-sepolia" =
      .error "msa-account-sepolia wallet currently not supported" ∧
    WalletFactoryAddresses.from_str "msa-basic-account" =
      .error "msa-basic-account's factory not supported" ∧
    WalletRegistry.from_str "msa-account-sepolia" =
      .error "msa-account-sepolia wallet currently not supported" :=
  ⟨rfl, rfl, rfl, rfl⟩

/- ### Theorems for C5 -/

/-- C5 (amended): when at least one sampled transaction carries both fee
fields (and the `U256` sums do not overflow), `get_gas_fee` returns the pair
of truncating-division means over exactly the qualifying transactions; when
no transaction qualifies, the division by the zero count panics — the
function neither returns `(0, 0)` nor an error value. -/
theorem get_gas_fee_amended :
    (∀ txs : List TxFees, qualifyingFees txs ≠ [] →
        ((qualifyingFees txs).map Prod.fst).sum < 2 ^ 256 →
        ((qualifyingFees txs).map Prod.snd).sum < 2 ^ 256 →
        get_gas_fee (.ok (some txs)) =
          .ok (((qualifyingFees txs).map Prod.fst).sum / (qualifyingFees txs).length,
            ((qualifyingFees txs).map Prod.snd).sum / (qualifyingFees txs).length)) ∧
    (∀ txs : List TxFees, qualifyingFees txs = [] →
        get_gas_fee (.ok (some txs)) = .crashed) := by
  constructor
  · intro txs hne h1 h2
    have hlen : (qualifyingFees txs).length ≠ 0 := by
      simpa [List.length_eq_zero] using hne
    simp only [get_gas_fee]
    rw [if_neg (by push_neg; exact ⟨h1, h2⟩), if_neg hlen]
  · intro txs h
    simp [get_gas_fee, h]

/-- Witness for C5 at the spec's example block and at the empty block. -/
theorem get_gas_fee_witness :
    get_gas_fee (.ok (some sampleTxs)) = .ok (20, 2) ∧
    get_gas_fee (.ok (some [])) = .crashed :=
  ⟨get_gas_fee_amended.1 sampleTxs (by decide) (by decide) (by decide),
   get_gas_fee_amended.2 [] rfl⟩

/-- Counterexample to C5 as stated: over zero qualifying transactions the
outcome is the division-by-zero panic, not a returned error value. -/
theorem get_gas_fee_counterexample :
    get_gas_fee (.ok (some [])) = .crashed ∧
    (get_gas_fee (.ok (some []))).isErrValue = false :=
  ⟨rfl, rfl⟩

/- ### Theorems for C3 -/

/-- C3 (amended): a success-envelope body is returned as is; a body parsing
as neither envelope propagates the serde failure; an ASCII error-envelope
message — on which the embedded matchers are exact, since the regex crate's
Unicode `\d` class coincides with `0-9` over ASCII — is classified in
priority order: the call-gas-limit pattern with its two captured numbers,
then the pre-verification-gas pattern with its two captured numbers, then
the `AA40 over verificationGasLimit` substring, then `UnknownError`,
provided each captured digit run denotes a value below `2^64` (a larger
capture makes the `parse::<u64>().unwrap()` panic instead; a message with
non-ASCII decimal digits can likewise panic on captures the ASCII-only
`u64` parser rejects, and is outside this theorem's scope). -/
theorem handle_response_classification (R : Type) :
    (∀ r : R, handle_response R (.successEnvelope r) = .success r) ∧
    handle_response R .malformed = .deserializationFailure ∧
    (∀ msg d1 d2, isAsciiMsg msg = true →
        findPattern callGasLit callGasMid msg = some (d1, d2) →
        natOfDigits d1 < 2 ^ 64 → natOfDigits d2 < 2 ^ 64 →
        handle_response R (.errorEnvelope msg) =
          .failure (.CallGasLimitError (natOfDigits d1) (natOfDigits d2))) ∧
    (∀ msg d1 d2, isAsciiMsg msg = true →
        findPattern callGasLit callGasMid msg = none →
        findPattern preVerLit preVerMid msg = some (d1, d2) →
        natOfDigits d1 < 2 ^ 64 → natOfDigits d2 < 2 ^ 64 →
        handle_response R (.errorEnvelope msg) =
          .failure (.PreVerificationGasError (natOfDigits d1) (natOfDigits d2))) ∧
    (∀ msg, isAsciiMsg msg = true →
        findPattern callGasLit callGasMid msg = none →
        findPattern preVerLit preVerMid msg = none →
        hasSubstr aa40Needle msg = true →
        handle_response R (.errorEnvelope msg) = .failure .VerificationGasLimitError) ∧
    (∀ msg, isAsciiMsg msg = true →
        findPattern callGasLit callGasMid msg = none →
        findPattern preVerLit preVerMid msg = none →
        hasSubstr aa40Needle msg = false →
        handle_response R (.errorEnvelope msg) = .failure .UnknownError) := by
  refine ⟨fun r => rfl, rfl, ?_, ?_, ?_, ?_⟩
  · intro msg d1 d2 hascii h hb1 hb2
    simp only [handle_response, classify, h]
    rw [if_pos hb1, if_pos hb2]
  · intro msg d1 d2 hascii h0 h hb1 hb2
    simp only [handle_response, classify, h0, h]
    rw [if_pos hb1, if_pos hb2]
  · intro msg hascii h0 h1 h2
    simp [handle_response, classify, h0, h1, h2]
  · intro msg hascii h0 h1 h2
    simp [handle_response, classify, h0, h1, h2]

/-- Witness for C3 at the spec's example message (an ASCII message). -/
theorem handle_response_classification_witness :
    handle_response Unit (.errorEnvelope callGasMsgExample) =
      .failure (.CallGasLimitError 100 250) :=
  (handle_response_classification Unit).2.2.1 callGasMsgExample
    (String.data "100") (String.data "250") (by decide) (by decide) (by decide)
    (by decide)

/-- Counterexample to C3 as stated: an ASCII message (so the embedding is
exact on it) matching the call-gas-limit pattern with a captured number of
`2^64` makes the code panic on the failed `u64` parse instead of producing
`CallGasLimitError`. -/
theorem handle_response_counterexample :
    isAsciiMsg callGasOverflowMsg = true ∧
    handle_response Unit (.errorEnvelope callGasOverflowMsg) = .crashed ∧
    handle_response Unit (.errorEnvelope callGasOverflowMsg) ≠
      .failure (.CallGasLimitError 18446744073709551616 1) := by
  decide

/- ### Length lemmas and theorems for C8 -/

/-- `beBytes` produces exactly `k` bytes. -/
theorem beBytes_length (k : Nat) : ∀ v : Nat, (beBytes k v).length = k := by
  induction k with
  | zero => intro v; rfl
  | succ k ih => intro v; simp [beBytes, ih]

/-- A keccak-256 digest is 32 bytes long. -/
theorem keccak256_length (m : List Nat) : (keccak256 m).length = 32 := by
  simp [keccak256, toLEBytes, Function.comp_def]

/-- The `execute` selector is 4 bytes long. -/
theorem executeSelector_length : executeSelector.length = 4 := by
  simp [executeSelector, keccak256_length]

/-- The general shape of `ethabi::encode` on a `(bytes32, bytes)` argument
pair: the 32 fixed bytes, the offset word (64), the length word, the
payload, zero padding to a 32-byte boundary. -/
theorem abiEncode_fixed_bytes (m p : List Nat) (hm : m.length = 32) :
    abiEncode [.fixedBytes m, .bytes p] =
      m ++ beBytes 32 64 ++ beBytes 32 p.length ++ p ++
        List.replicate ((32 - p.length % 32) % 32) 0 := by
  simp [abiEncode, abiEncodeGo, isDynamicToken, encStatic, encTail, hm]

/-- The mode tag is 32 bytes long. -/
theorem mode_code_single_length : mode_code_single.length = 32 := by
  simp [mode_code_single]

/-- The execution payload is 53 bytes long. -/
theorem execution_calldata_length (to_address value : Nat) :
    (execution_calldata to_address value).length = 53 := by
  simp [execution_calldata, beBytes_length]

/-- The ABI encoding of the two `execute` arguments: mode tag, offset word
(64), length word (53), payload, padding to a 32-byte boundary. -/
theorem abiEncode_execute_args (to_address value : Nat) :
    abiEncode [.fixedBytes mode_code_single, .bytes (execution_calldata to_address value)] =
      mode_code_single ++ beBytes 32 64 ++ beBytes 32 53 ++
        beBytes 20 to_address ++ beBytes 32 value ++ [0] ++ List.replicate 11 0 := by
  rw [abiEncode_fixed_bytes mode_code_single _ mode_code_single_length,
    execution_calldata_length]
  norm_num [execution_calldata, List.append_assoc]

/-- C8 (amended): the transfer calldata is the 4-byte `execute(bytes32,bytes)`
selector followed by the ABI encoding of the two arguments: the 32-byte zero
mode tag, the offset word (64), the length word (53), and the execution
payload — 20-byte destination, 32-byte big-endian value, one zero flag
byte — zero-padded to a 32-byte boundary. -/
theorem calldata_gen_send_eth_layout (to_address value : Nat) :
    calldata_gen_send_eth to_address value =
      executeSelector ++ (mode_code_single ++ beBytes 32 64 ++ beBytes 32 53 ++
        beBytes 20 to_address ++ beBytes 32 value ++ [0] ++ List.replicate 11 0) :=
  congrArg (fun l => executeSelector ++ l) (abiEncode_execute_args to_address value)

/-- Counterexample to C8 as stated: the produced calldata is 164 bytes (the
selector-prefixed ABI encoding of the `execute` call), while the layout the
claim describes is only 85 bytes, so the two differ; in particular the first
32 bytes of the calldata are not the zero mode tag. -/
theorem calldata_gen_send_eth_counterexample :
    (calldata_gen_send_eth transferDest transferValue).length = 164 ∧
    (claimedTransferCalldata transferDest transferValue).length = 85 ∧
    calldata_gen_send_eth transferDest transferValue ≠
      claimedTransferCalldata transferDest transferValue := by
  have hlen : (calldata_gen_send_eth transferDest transferValue).length = 164 := by
    show (executeSelector ++ abiEncode
      [.fixedBytes mode_code_single,
       .bytes (execution_calldata transferDest transferValue)]).length = 164
    rw [List.length_append, executeSelector_length,
      abiEncode_fixed_bytes mode_code_single _ mode_code_single_length,
      execution_calldata_length]
    simp [List.length_append, beBytes_length, mode_code_single_length,
      execution_calldata_length]
  have hcl : (claimedTransferCalldata transferDest transferValue).length = 85 := by
    simp [claimedTransferCalldata, beBytes_length]
  refine ⟨hlen, hcl, fun h => ?_⟩
  have hcontra := congrArg List.length h
  rw [hlen, hcl] at hcontra
  exact absurd hcontra (by norm_num)
